import Mathlib

/-!
Shallow embedding of the campaign targeting resolver of the
`i9_smart_feed_api_fastapi` repository, together with proofs about the
claims of its specification.

Sources embedded here:
  * `src/app/utils/regions.py` — state → region table;
  * `src/app/models/branch.py`, `station.py`, `campaign.py`, `image.py`
    — the data model (nullable columns become `Option`, PostgreSQL
    `ARRAY(String)` columns become `JArr`, timestamps become `Int`);
  * `src/app/routes/campaigns.py`, `active_by_station` (lines 149–261);
  * `src/app/routes/tablets.py`, `get_active_for_station` (lines 50–250).

The two route handlers are deliberately embedded twice, mirroring the
copy-pasted Python, so that their equivalence can be *proved* rather than
assumed.  Python's `sorted(..., reverse=True)` (a stable sort) is embedded
as a structural stable insertion sort (`sortBy`), which has the same
input/output behaviour.  A campaign whose targeting-array column holds a
malformed (non-array) JSON payload is modelled by the `JArr.bad`
constructor: Python truthiness works on any object, while a membership
test `x in bad` raises `TypeError`; classification is therefore embedded
in the `Except Unit` monad.
-/

namespace Feed

/-! ## Data model (from `src/app/models` and `src/app/utils/regions.py`) -/

/-- Value of a PostgreSQL `ARRAY(String)` column as seen from Python:
`null` (column NULL, falsy, membership test raises), `arr xs` (a real
list), or `bad` (a malformed non-array payload: truthy, membership test
raises `TypeError`). -/
inductive JArr : Type
  | null : JArr
  | arr : List String → JArr
  | bad : JArr
deriving DecidableEq, Repr

/-- Python truthiness of a `JArr` value: `None` and `[]` are falsy, a
non-empty list and any malformed non-array object are truthy. -/
def JArr.truthy : JArr → Bool
  | .null => false
  | .arr xs => !xs.isEmpty
  | .bad => true

/-- Python `x or []` applied to a `JArr` value (used by both handlers as
`campaign.branches or []` etc.): a falsy value becomes `[]`, a truthy
value is kept. -/
def JArr.orEmpty : JArr → JArr
  | .null => .arr []
  | .arr xs => if xs.isEmpty then .arr [] else .arr xs
  | .bad => .bad

/-- Python membership test `x in arrObj` where `x` is `None` or a string:
on a real list it is string membership (`None` is never a member of a
list of strings); on `None` or a malformed payload it raises
`TypeError`. -/
def JArr.pyMem : Option String → JArr → Except Unit Bool
  | some s, .arr xs => .ok (xs.contains s)
  | none, .arr _ => .ok false
  | _, .null => .error ()
  | _, .bad => .error ()

/-- Table `STATE_TO_REGION` of `src/app/utils/regions.py` (lines 7–44). -/
def STATE_TO_REGION : List (String × String) :=
  [("AC", "Norte"), ("AP", "Norte"), ("AM", "Norte"), ("PA", "Norte"),
   ("RO", "Norte"), ("RR", "Norte"), ("TO", "Norte"),
   ("AL", "Nordeste"), ("BA", "Nordeste"), ("CE", "Nordeste"),
   ("MA", "Nordeste"), ("PB", "Nordeste"), ("PE", "Nordeste"),
   ("PI", "Nordeste"), ("RN", "Nordeste"), ("SE", "Nordeste"),
   ("DF", "Centro-Oeste"), ("GO", "Centro-Oeste"), ("MT", "Centro-Oeste"),
   ("MS", "Centro-Oeste"),
   ("ES", "Sudeste"), ("MG", "Sudeste"), ("RJ", "Sudeste"), ("SP", "Sudeste"),
   ("PR", "Sul"), ("RS", "Sul"), ("SC", "Sul")]

/-- Models Python's `str.upper()` on the ASCII state codes (kernel-reducible
replacement for `String.toUpper`, which is defined through `String.mapAux`
and does not reduce). -/
def upperAscii (s : String) : String := String.mk (s.data.map Char.toUpper)

/-- Function `get_region_by_state` of `src/app/utils/regions.py`
(lines 62–64): `STATE_TO_REGION.get(state.upper())`. -/
def get_region_by_state (state : String) : Option String :=
  STATE_TO_REGION.lookup (upperAscii state)

/-- Model `Branch` of `src/app/models/branch.py`.  Only the columns the
embedded routes read are kept (`region` is a derived property, not a
column). -/
structure Branch : Type where
  id : Nat
  code : String
  state : String
  is_active : Option Bool
deriving DecidableEq, Repr

/-- Property `Branch.region` of `src/app/models/branch.py` (lines 31–34):
`get_region_by_state(self.state)`. -/
def Branch.region (b : Branch) : Option String := get_region_by_state b.state

/-- Model `Station` of `src/app/models/station.py`.  The `code` column is
unique only per branch (composite constraint on `(branch_id, code)`); the
`branch` relationship is embedded directly as the owning branch row. -/
structure Station : Type where
  id : Nat
  code : String
  branch : Option Branch
  is_active : Option Bool
deriving DecidableEq, Repr

/-- Model `Campaign` of `src/app/models/campaign.py`.  Nullable columns are
`Option`; datetimes (`start_date`, `end_date`, `created_at`) are `Int`
timestamps; the three `ARRAY(String)` targeting columns are `JArr`. -/
structure Campaign : Type where
  id : Nat
  name : String
  description : Option String
  status : Option String
  start_date : Int
  end_date : Int
  default_display_time : Option Int
  branches : JArr
  regions : JArr
  stations : JArr
  priority : Option Int
  is_deleted : Option Bool
  created_at : Int
deriving DecidableEq, Repr

/-- Model `CampaignImage` of `src/app/models/image.py`, restricted to the
columns read by the tablet handler. -/
structure CampaignImage : Type where
  id : Nat
  campaign_id : Nat
  order : Int
  display_time : Option Int
  active : Option Bool
  width : Option Int
  height : Option Int
  mime_type : Option String
  size_bytes : Option Int
deriving DecidableEq, Repr

/-- Database snapshot the two handlers read: the station rows (in the row
order the persistence layer happens to return them), the campaign rows and
the campaign-image rows. -/
structure DB : Type where
  stations : List Station
  campaigns : List Campaign
  images : List CampaignImage
deriving DecidableEq, Repr

/-! ## Stable sort (embedding of Python `sorted`) -/

/-- Stable insertion of `x` into `l`: `x` is placed before the first
element `y` with `le x y`.  With a total comparator this is the insertion
step of a stable insertion sort. -/
def insertBy (le : α → α → Bool) (x : α) : List α → List α
  | [] => [x]
  | y :: ys => if le x y then x :: y :: ys else y :: insertBy le x ys

/-- Stable insertion sort with comparator `le`; on a total preorder
comparator this computes exactly Python's stable `sorted`. -/
def sortBy (le : α → α → Bool) : List α → List α
  | [] => []
  | x :: xs => insertBy le x (sortBy le xs)

/-- Outcome of a route handler: a well-formed JSON response, or an
unhandled exception escaping the handler (an HTTP 500 from the
framework). -/
inductive HandlerResult (ρ : Type) : Type
  | resp : ρ → HandlerResult ρ
  | serverError : HandlerResult ρ
deriving DecidableEq, Repr

/-- Python membership of an optional string in a list of strings (`None`
is never a member). -/
def optMem (x : Option String) (xs : List String) : Bool :=
  match x with
  | some s => xs.contains s
  | none => false

/-! ## Dashboard handler `active_by_station`
(`src/app/routes/campaigns.py`, lines 149–261) -/

namespace CampaignsRoute

/-- Station lookup of lines 170–173:
`db.query(Station).filter(Station.code == station_code,
Station.is_active == True).first()` — the first row, in row order, whose
`code` matches and whose `is_active` column is SQL-true; the owning branch
is not constrained. -/
def lookupStation (rows : List Station) (station_code : String) : Option Station :=
  rows.find? (fun s => s.code == station_code && s.is_active == some true)

/-- Candidate query of lines 176–181: campaigns with
`is_deleted == False`, `status == "active"`, `start_date <= now` and
`end_date >= now` (SQL equality on a NULL column is never true). -/
def fetchCandidates (rows : List Campaign) (now : Int) : List Campaign :=
  rows.filter (fun c =>
    c.is_deleted == some false && c.status == some "active" &&
    decide (c.start_date ≤ now) && decide (c.end_date ≥ now))

/-- Loop body of lines 193–222, classifying one campaign.  `hasStation`
is the truthiness of the `station` row, `branch_code` and `region` the
values computed on lines 188–191.  A membership test on a malformed
targeting column raises, hence the `Except`. -/
def includeCampaign (hasStation : Bool) (branch_code region : Option String)
    (station_code : String) (c : Campaign) : Except Unit Bool := do
  let branches := c.branches.orEmpty
  let regions := c.regions.orEmpty
  let stations := c.stations.orEmpty
  if !branches.truthy && !regions.truthy && !stations.truthy then
    return true
  if !hasStation then
    return false
  if regions.truthy && !branches.truthy && !stations.truthy then
    return (← JArr.pyMem region regions)
  if branches.truthy && !stations.truthy then
    return (← JArr.pyMem branch_code branches)
  if branches.truthy && stations.truthy then
    if (← JArr.pyMem branch_code branches) then
      return (← JArr.pyMem (some station_code) stations)
    else
      return false
  return false

/-- Filtering loop of lines 193–222 over the whole candidate list; the
first exception aborts the loop (it is caught by the handler-wide
`except`). -/
def filterIncluded (hasStation : Bool) (branch_code region : Option String)
    (station_code : String) : List Campaign → Except Unit (List Campaign)
  | [] => .ok []
  | c :: cs => do
    let b ← includeCampaign hasStation branch_code region station_code c
    let rest ← filterIncluded hasStation branch_code region station_code cs
    return if b then c :: rest else rest

/-- Sort key of line 227: `(-x.priority if x.priority else 0, x.created_at)`
(Python truthiness: a NULL or zero priority yields `0`). -/
def sortKey (c : Campaign) : Int × Int :=
  (match c.priority with
   | some p => if p == 0 then 0 else -p
   | none => 0,
   c.created_at)

/-- Comparator realising line 227's `sorted(..., key=..., reverse=True)`:
`a` may come before `b` iff `sortKey a` is lexicographically ≥
`sortKey b`; a stable sort with this comparator is exactly Python's stable
reverse sort. -/
def pyGe (a b : Campaign) : Bool :=
  ((sortKey b).1 < (sortKey a).1) ||
    ((sortKey b).1 == (sortKey a).1 && (sortKey b).2 ≤ (sortKey a).2)

/-- Deduplication of lines 225–231: keep the first occurrence of each
campaign `id` (`seen` is the set of ids already emitted). -/
def dedupById (seen : List Nat) : List Campaign → List Campaign
  | [] => []
  | c :: cs =>
    if c.id ∈ seen then dedupById seen cs
    else c :: dedupById (c.id :: seen) cs

/-- Lines 224–231: sort by the reverse key, then deduplicate by id. -/
def rankDedup (included : List Campaign) : List Campaign :=
  dedupById [] (sortBy pyGe included)

/-- Boolean inclusion decision of one campaign, equal to the loop body's
outcome whenever that body does not raise. -/
def includeBool (hasStation : Bool) (branch_code region : Option String)
    (station_code : String) (c : Campaign) : Bool :=
  match includeCampaign hasStation branch_code region station_code c with
  | .ok b => b
  | .error _ => false

/-- Campaign entry of the response body (lines 243–258). -/
structure CampaignView : Type where
  id : Nat
  name : String
  description : Option String
  default_display_time : Option Int
  priority : Option Int
  targeting_level : String
deriving DecidableEq, Repr

/-- Expression `targeting_level` of lines 250–255, computed from Python
truthiness of the raw array columns. -/
def targetingLevel (c : Campaign) : String :=
  if !c.branches.truthy && !c.regions.truthy && !c.stations.truthy then "global"
  else if c.regions.truthy && !c.branches.truthy then "regional"
  else if c.branches.truthy && !c.stations.truthy then "branch"
  else "station"

/-- Response body of lines 239–261 (the wall-clock `timestamp` field is
omitted: it is outside the data model). -/
structure DashResponse : Type where
  station_code : String
  branch_code : Option String
  region : Option String
  campaigns : List CampaignView
  total : Nat
deriving DecidableEq, Repr

/-- Lines 239–261: assemble the response from the handler locals. -/
def mkResponse (station_code : String) (station : Option Station)
    (branch_code region : Option String) (campaigns : List Campaign) :
    DashResponse :=
  { station_code := station_code
    branch_code := if station.isSome then branch_code else none
    region := if station.isSome then region else none
    campaigns := campaigns.map (fun c =>
      { id := c.id
        name := c.name
        description := c.description
        default_display_time := c.default_display_time
        priority := c.priority
        targeting_level := targetingLevel c })
    total := campaigns.length }

/-- Handler `active_by_station` (lines 149–261).  `fetchOutcome` is the
outcome of the candidate query of lines 176–181 (normally
`.ok (fetchCandidates db.campaigns now)`; `.error ()` models the database
raising there).  The handler-wide `try`/`except` of lines 162–237 sets
`campaigns = []` on any exception; since `branch_code` is only assigned
after the candidate query, a query failure leaves it unbound, and the
response expression `branch_code if station else None` (line 241) then
raises `NameError` — an HTTP 500 — exactly when `station` is truthy. -/
def activeByStation (db : DB) (station_code : String) (now : Int)
    (fetchOutcome : Except Unit (List Campaign)) :
    HandlerResult DashResponse :=
  let station := lookupStation db.stations station_code
  match fetchOutcome with
  | .error _ =>
    if station.isSome then .serverError
    else .resp (mkResponse station_code none none none [])
  | .ok all_campaigns =>
    let branch := station.bind (·.branch)
    let branch_code := branch.map (·.code)
    let region := branch.bind (·.region)
    match filterIncluded station.isSome branch_code region station_code
        all_campaigns with
    | .error _ =>
      .resp (mkResponse station_code station branch_code region [])
    | .ok included =>
      .resp (mkResponse station_code station branch_code region
        (rankDedup included))

/-- Handler on the normal path: the candidate query succeeds and returns
the filter of the campaign table (lines 176–181). -/
def run (db : DB) (station_code : String) (now : Int) :
    HandlerResult DashResponse :=
  activeByStation db station_code now (.ok (fetchCandidates db.campaigns now))

end CampaignsRoute

/-! ## Tablet handler `get_active_for_station`
(`src/app/routes/tablets.py`, lines 50–250) — a verbatim copy of the
dashboard targeting logic, embedded separately so that the claimed
equivalence of the two surfaces can be proved. -/

namespace TabletsRoute

/-- Station lookup of lines 72–79 (identical to the dashboard lookup). -/
def lookupStation (rows : List Station) (station_code : String) : Option Station :=
  rows.find? (fun s => s.code == station_code && s.is_active == some true)

/-- Candidate query of lines 82–91 (identical to the dashboard query). -/
def fetchCandidates (rows : List Campaign) (now : Int) : List Campaign :=
  rows.filter (fun c =>
    c.is_deleted == some false && c.status == some "active" &&
    decide (c.start_date ≤ now) && decide (c.end_date ≥ now))

/-- Loop body of lines 103–132, classifying one campaign (identical to the
dashboard loop body). -/
def includeCampaign (hasStation : Bool) (branch_code region : Option String)
    (station_code : String) (c : Campaign) : Except Unit Bool := do
  let branches := c.branches.orEmpty
  let regions := c.regions.orEmpty
  let stations := c.stations.orEmpty
  if !branches.truthy && !regions.truthy && !stations.truthy then
    return true
  if !hasStation then
    return false
  if regions.truthy && !branches.truthy && !stations.truthy then
    return (← JArr.pyMem region regions)
  if branches.truthy && !stations.truthy then
    return (← JArr.pyMem branch_code branches)
  if branches.truthy && stations.truthy then
    if (← JArr.pyMem branch_code branches) then
      return (← JArr.pyMem (some station_code) stations)
    else
      return false
  return false

/-- Filtering loop of lines 103–132 over the candidate list. -/
def filterIncluded (hasStation : Bool) (branch_code region : Option String)
    (station_code : String) : List Campaign → Except Unit (List Campaign)
  | [] => .ok []
  | c :: cs => do
    let b ← includeCampaign hasStation branch_code region station_code c
    let rest ← filterIncluded hasStation branch_code region station_code cs
    return if b then c :: rest else rest

/-- Sort key of line 139 (identical to the dashboard sort key). -/
def sortKey (c : Campaign) : Int × Int :=
  (match c.priority with
   | some p => if p == 0 then 0 else -p
   | none => 0,
   c.created_at)

/-- Comparator realising lines 137–141's stable `reverse=True` sort. -/
def pyGe (a b : Campaign) : Bool :=
  ((sortKey b).1 < (sortKey a).1) ||
    ((sortKey b).1 == (sortKey a).1 && (sortKey b).2 ≤ (sortKey a).2)

/-- Deduplication of lines 135–145 (identical to the dashboard one). -/
def dedupById (seen : List Nat) : List Campaign → List Campaign
  | [] => []
  | c :: cs =>
    if c.id ∈ seen then dedupById seen cs
    else c :: dedupById (c.id :: seen) cs

/-- Lines 134–145: sort by the reverse key, then deduplicate by id. -/
def rankDedup (included : List Campaign) : List Campaign :=
  dedupById [] (sortBy pyGe included)

/-- Image query of lines 158–166: active images of one campaign, ordered
by the `order` column ascending. -/
def activeImagesSorted (rows : List CampaignImage) (cid : Nat) :
    List CampaignImage :=
  sortBy (fun a b => decide (a.order ≤ b.order))
    (rows.filter (fun i => i.campaign_id == cid && i.active == some true))

/-- Image entry of the response body (lines 191–204; the request-derived
`checksum` and `download_url` strings are outside the data model and
omitted). -/
structure TabletImageView : Type where
  id : Nat
  campaign_id : Nat
  order_index : Int
  display_time : Option Int
  width : Option Int
  height : Option Int
  mime_type : Option String
  size_bytes : Option Int
deriving DecidableEq, Repr

/-- Line 191–204: format one image row.  Note line 196 exposes the raw
`display_time` column (the source comment reads `null usará
default_display_time`, i.e. the client applies the fallback). -/
def formatImage (cid : Nat) (img : CampaignImage) : TabletImageView :=
  { id := img.id
    campaign_id := cid
    order_index := img.order
    display_time := img.display_time
    width := img.width
    height := img.height
    mime_type := img.mime_type
    size_bytes := img.size_bytes }

/-- Campaign entry of the response body (lines 206–232). -/
structure TabletCampaignView : Type where
  id : Nat
  name : String
  description : Option String
  default_display_time : Option Int
  priority : Int
  targeting_level : String
  start_date : Int
  end_date : Int
  images : List TabletImageView
deriving DecidableEq, Repr

/-- Expression `targeting_level` of lines 213–227, computed from Python
truthiness of `c.branches or []` etc. -/
def targetingLevel (c : Campaign) : String :=
  if !c.branches.orEmpty.truthy && !c.regions.orEmpty.truthy &&
      !c.stations.orEmpty.truthy then "global"
  else if c.regions.orEmpty.truthy && !c.branches.orEmpty.truthy then "regional"
  else if c.branches.orEmpty.truthy && !c.stations.orEmpty.truthy then "branch"
  else "station"

/-- Response body of lines 237–245 (the wall-clock `timestamp` and the
pass-through `request_id` are outside the data model and omitted). -/
structure TabletResponse : Type where
  station_code : String
  branch_code : Option String
  region : Option String
  campaigns : List TabletCampaignView
  total : Nat
  cache_ttl : Nat
deriving DecidableEq, Repr

/-- Lines 154–232: the image-assembly loop over the ranked campaigns. -/
def assembleCampaign (imageRows : List CampaignImage) (c : Campaign) :
    TabletCampaignView :=
  { id := c.id
    name := c.name
    description := c.description
    default_display_time := c.default_display_time
    priority := c.priority.getD 0
    targeting_level := targetingLevel c
    start_date := c.start_date
    end_date := c.end_date
    images := (activeImagesSorted imageRows c.id).map (formatImage c.id) }

/-- Handler `get_active_for_station` (lines 50–250).  The
`try`/`except` of lines 71–152 has exactly the shape of the dashboard
one: any exception inside it yields `campaigns = []`, and a failure of
the candidate query itself (lines 82–91) leaves `branch_code` unbound so
that line 239 raises `NameError` when `station` is truthy. -/
def getActiveForStation (db : DB) (station_code : String) (now : Int)
    (fetchOutcome : Except Unit (List Campaign)) :
    HandlerResult TabletResponse :=
  let station := lookupStation db.stations station_code
  let mkResp := fun (station : Option Station)
      (branch_code region : Option String) (campaigns : List Campaign) =>
    TabletResponse.mk station_code
      (if station.isSome then branch_code else none)
      (if station.isSome then region else none)
      (campaigns.map (assembleCampaign db.images))
      campaigns.length 120
  match fetchOutcome with
  | .error _ =>
    if station.isSome then .serverError
    else .resp (mkResp none none none [])
  | .ok all_campaigns =>
    let branch := station.bind (·.branch)
    let branch_code := branch.map (·.code)
    let region := branch.bind (·.region)
    match filterIncluded station.isSome branch_code region station_code
        all_campaigns with
    | .error _ =>
      .resp (mkResp station branch_code region [])
    | .ok included =>
      .resp (mkResp station branch_code region (rankDedup included))

/-- Handler on the normal path: the candidate query succeeds. -/
def run (db : DB) (station_code : String) (now : Int) :
    HandlerResult TabletResponse :=
  getActiveForStation db station_code now
    (.ok (fetchCandidates db.campaigns now))

end TabletsRoute

/-! ## Concrete scenario data (spec §8 and claim edge cases) -/

/-- Projection of a handler outcome to its response, `none` on an
unhandled exception. -/
def respOf {ρ : Type} : HandlerResult ρ → Option ρ
  | .resp r => some r
  | .serverError => none

/-- Projection of a dashboard handler outcome to the surface-independent
content: station code, location fields, the (id, targeting_level) pairs in
order, and the total (`none` on an unhandled exception). -/
def projDash (h : HandlerResult CampaignsRoute.DashResponse) :
    Option (String × Option String × Option String × List (Nat × String) × Nat) :=
  match h with
  | .resp r => some (r.station_code, r.branch_code, r.region,
      r.campaigns.map (fun v => (v.id, v.targeting_level)), r.total)
  | .serverError => none

/-- Projection of a tablet handler outcome to the same surface-independent
content as `projDash`. -/
def projTab (h : HandlerResult TabletsRoute.TabletResponse) :
    Option (String × Option String × Option String × List (Nat × String) × Nat) :=
  match h with
  | .resp r => some (r.station_code, r.branch_code, r.region,
      r.campaigns.map (fun v => (v.id, v.targeting_level)), r.total)
  | .serverError => none

/-- Campaign entries of a tablet handler outcome (empty on an unhandled
exception). -/
def campaignsOfT (h : HandlerResult TabletsRoute.TabletResponse) :
    List TabletsRoute.TabletCampaignView :=
  match h with
  | .resp r => r.campaigns
  | .serverError => []

namespace Scenario

/-- Baseline active, in-window (for `now = 100`), non-deleted campaign. -/
def baseCampaign (id : Nat) : Campaign :=
  { id := id, name := "c", description := none, status := some "active",
    start_date := 0, end_date := 200, default_display_time := some 5000,
    branches := .arr [], regions := .arr [], stations := .arr [],
    priority := some 0, is_deleted := some false, created_at := 10 * id }

/-- Branch of spec §8.7: code "SP01", state SP (region Sudeste). -/
def brSP : Branch := { id := 1, code := "SP01", state := "SP", is_active := some true }

/-- Station "001" of spec §8.7, owned by `brSP`. -/
def st001 : Station := { id := 1, code := "001", branch := some brSP, is_active := some true }

/-- Campaign A of spec §8.7: global, priority 0. -/
def cGlobalA : Campaign :=
  { baseCampaign 1 with branches := .null, regions := .null, stations := .null }

/-- Campaign B of spec §8.7: regional (Sudeste), priority 5. -/
def cRegionalB : Campaign :=
  { baseCampaign 2 with regions := .arr ["Sudeste"], priority := some 5 }

/-- Campaign C of spec §8.7: branch-wide (SP01), priority 3. -/
def cBranchC : Campaign :=
  { baseCampaign 3 with branches := .arr ["SP01"], priority := some 3 }

/-- Campaign D of spec §8.7: station-specific for station "002", priority 10. -/
def cStationD : Campaign :=
  { baseCampaign 4 with
    branches := .arr ["SP01"], stations := .arr ["002"], priority := some 10 }

/-- Database of spec §8.7. -/
def dbSpec87 : DB :=
  { stations := [st001], campaigns := [cGlobalA, cRegionalB, cBranchC, cStationD],
    images := [] }

/-- Campaign with the undefined array combination of spec §4.3:
`regions` non-empty together with `stations` non-empty, `branches` empty. -/
def cUndefinedCombo : Campaign :=
  { baseCampaign 5 with regions := .arr ["Sudeste"], stations := .arr ["001"] }

/-- Station-specific campaign targeting station "001" of branch "010101". -/
def cStaWrongBranch : Campaign :=
  { baseCampaign 6 with branches := .arr ["010101"], stations := .arr ["001"] }

/-- Branch "020202" and its station "001" (same station code, different
branch than `cStaWrongBranch` targets). -/
def brWrong : Branch := { id := 2, code := "020202", state := "SP", is_active := some true }

def stWrongBranch : Station :=
  { id := 2, code := "001", branch := some brWrong, is_active := some true }

def dbWrongBranch : DB :=
  { stations := [stWrongBranch], campaigns := [cStaWrongBranch], images := [] }

/-- Campaign whose `regions` column holds a malformed non-array payload. -/
def cMalformed : Campaign := { baseCampaign 7 with regions := .bad }

/-- Catalog with one good global campaign and one malformed campaign. -/
def dbMalformed : DB :=
  { stations := [st001], campaigns := [cGlobalA, cMalformed], images := [] }

/-- Two distinct global campaigns with identical priority and creation
time (a tied sort key). -/
def cTie1 : Campaign :=
  { baseCampaign 8 with
    branches := .null, regions := .null, stations := .null,
    priority := some 1, created_at := 50 }

def cTie2 : Campaign :=
  { baseCampaign 9 with
    branches := .null, regions := .null, stations := .null,
    priority := some 1, created_at := 50 }

def dbTieA : DB := { stations := [st001], campaigns := [cTie1, cTie2], images := [] }

def dbTieB : DB := { stations := [st001], campaigns := [cTie2, cTie1], images := [] }

/-- Boundary campaigns for the candidate window at `now = 100`. -/
def cStartsNow : Campaign := { baseCampaign 10 with start_date := 100, end_date := 200 }

def cEndsNow : Campaign := { baseCampaign 11 with start_date := 0, end_date := 100 }

def cEndedBefore : Campaign := { baseCampaign 12 with start_date := 0, end_date := 99 }

def cPaused : Campaign := { baseCampaign 13 with status := some "paused" }

/-- Active image of campaign 1 with no per-image display-time override. -/
def img1 : CampaignImage :=
  { id := 1, campaign_id := 1, order := 1, display_time := none,
    active := some true, width := some 1920, height := some 1080,
    mime_type := some "image/jpeg", size_bytes := some 1000 }

def dbImg : DB := { stations := [st001], campaigns := [cGlobalA], images := [img1] }

/-- Two active stations sharing code "001" under different branches
(allowed by the composite uniqueness on `(branch_id, code)`). -/
def brX : Branch := { id := 3, code := "X1", state := "SP", is_active := some true }

def brY : Branch := { id := 4, code := "Y1", state := "PR", is_active := some true }

def stX : Station := { id := 3, code := "001", branch := some brX, is_active := some true }

def stY : Station := { id := 4, code := "001", branch := some brY, is_active := some true }

def dbDupA : DB := { stations := [stX, stY], campaigns := [baseCampaign 20], images := [] }

def dbDupB : DB := { stations := [stY, stX], campaigns := [baseCampaign 20], images := [] }

/-- Spec §8.7 catalog with its campaign rows in a different order. -/
def dbSpec87Perm : DB :=
  { stations := [st001],
    campaigns := [cRegionalB, cGlobalA, cStationD, cBranchC], images := [] }

/-- Tablet view of campaign A assembled from the image catalog of
`dbImg`. -/
def vGlobalA : TabletsRoute.TabletCampaignView :=
  TabletsRoute.assembleCampaign dbImg.images cGlobalA

end Scenario

/-- Definition transcribed from the wording of spec §4.3 Step 3 (the claim
text): the four targeting rules tested in this fixed order — global,
regional, branch-wide, station-specific — the first matching rule
deciding, and any combination matching none of the four excluded.  The
spec makes rules 2–4 require a resolved location. -/
def specRuleClassify (hasStation : Bool) (branch_code region : Option String)
    (station_code : String) (bs rs ss : List String) : Bool :=
  if bs.isEmpty && rs.isEmpty && ss.isEmpty then true
  else if !rs.isEmpty && bs.isEmpty && ss.isEmpty then
    hasStation && optMem region rs
  else if !bs.isEmpty && ss.isEmpty then
    hasStation && optMem branch_code bs
  else if !bs.isEmpty && !ss.isEmpty then
    hasStation && optMem branch_code bs && ss.contains station_code
  else false

/-! ## Generic lemmas about the stable sort and the handler pieces -/

theorem insertBy_perm (le : α → α → Bool) (x : α) (l : List α) :
    List.Perm (insertBy le x l) (x :: l) := by
  induction l with
  | nil => simp [insertBy]
  | cons y ys ih =>
    by_cases h : le x y
    · simp [insertBy, h]
    · simp only [insertBy, h, if_neg]
      exact (ih.cons y).trans (List.Perm.swap x y ys)

theorem sortBy_perm (le : α → α → Bool) (l : List α) :
    List.Perm (sortBy le l) l := by
  induction l with
  | nil => simp [sortBy]
  | cons x xs ih => exact (insertBy_perm le x (sortBy le xs)).trans (ih.cons x)

theorem mem_sortBy {le : α → α → Bool} {l : List α} {a : α} :
    a ∈ sortBy le l ↔ a ∈ l := (sortBy_perm le l).mem_iff

theorem mem_insertBy {le : α → α → Bool} {l : List α} {x a : α} :
    a ∈ insertBy le x l ↔ a = x ∨ a ∈ l := by
  rw [(insertBy_perm le x l).mem_iff, List.mem_cons]

theorem pairwise_insertBy (le : α → α → Bool)
    (htot : ∀ a b, le a b || le b a)
    (htrans : ∀ a b c, le a b = true → le b c = true → le a c = true)
    (x : α) (l : List α) (hl : List.Pairwise (fun a b => le a b = true) l) :
    List.Pairwise (fun a b => le a b = true) (insertBy le x l) := by
  induction l with
  | nil => simp [insertBy]
  | cons y ys ih =>
    rcases List.pairwise_cons.mp hl with ⟨hy, hys⟩
    by_cases h : le x y
    · simp only [insertBy, h, if_pos]
      refine List.pairwise_cons.mpr ⟨?_, hl⟩
      intro z hz
      rcases List.mem_cons.mp hz with rfl | hz
      · exact h
      · exact htrans x y z h (hy z hz)
    · simp only [insertBy, h, if_neg]
      refine List.pairwise_cons.mpr ⟨?_, ih hys⟩
      intro z hz
      rcases mem_insertBy.mp hz with hzx | hz
      · rw [hzx]
        have := htot x y
        simpa [h] using this
      · exact hy z hz

theorem sortBy_pairwise (le : α → α → Bool)
    (htot : ∀ a b, le a b || le b a)
    (htrans : ∀ a b c, le a b = true → le b c = true → le a c = true)
    (l : List α) :
    List.Pairwise (fun a b => le a b = true) (sortBy le l) := by
  induction l with
  | nil => simp [sortBy]
  | cons x xs ih => exact pairwise_insertBy le htot htrans x (sortBy le xs) ih

/-- Two sorted permutations of one another are equal, provided the
comparator is antisymmetric on the members of the list. -/
theorem sorted_perm_eq {r : α → α → Bool} :
    ∀ {l₁ l₂ : List α}, List.Perm l₁ l₂ →
      List.Pairwise (fun a b => r a b = true) l₁ →
      List.Pairwise (fun a b => r a b = true) l₂ →
      (∀ a ∈ l₁, ∀ b ∈ l₁, r a b = true → r b a = true → a = b) →
      l₁ = l₂
  | [], l₂, hp, _, _, _ => hp.nil_eq
  | a :: t₁, [], hp, _, _, _ => absurd hp.symm.nil_eq (by simp)
  | a :: t₁, b :: t₂, hp, h₁, h₂, hanti => by
    have hab : a = b := by
      by_cases hne : a = b
      · exact hne
      · have hbmem : b ∈ a :: t₁ := hp.mem_iff.mpr (List.mem_cons_self b t₂)
        have hamem : a ∈ b :: t₂ := hp.mem_iff.mp (List.mem_cons_self a t₁)
        have hbt : b ∈ t₁ := by
          rcases List.mem_cons.mp hbmem with h | h
          · exact absurd h.symm hne
          · exact h
        have hat : a ∈ t₂ := by
          rcases List.mem_cons.mp hamem with h | h
          · exact absurd h hne
          · exact h
        have hrab : r a b = true := (List.pairwise_cons.mp h₁).1 b hbt
        have hrba : r b a = true := (List.pairwise_cons.mp h₂).1 a hat
        exact hanti a (List.mem_cons_self a t₁) b hbmem hrab hrba
    subst hab
    have ht : List.Perm t₁ t₂ := hp.cons_inv
    have : t₁ = t₂ :=
      sorted_perm_eq ht (List.pairwise_cons.mp h₁).2 (List.pairwise_cons.mp h₂).2
        (fun x hx y hy => hanti x (List.mem_cons_of_mem a hx)
          y (List.mem_cons_of_mem a hy))
    rw [this]

theorem JArr.truthy_orEmpty (x : JArr) : x.orEmpty.truthy = x.truthy := by
  cases x with
  | null => rfl
  | bad => rfl
  | arr xs => by_cases h : xs.isEmpty <;> simp [JArr.orEmpty, JArr.truthy, h]

theorem JArr.pyMem_arr (x : Option String) (xs : List String) :
    JArr.pyMem x (.arr xs) = .ok (optMem x xs) := by
  cases x <;> rfl

theorem exc_pure_eq (a : α) : (pure a : Except Unit α) = .ok a := rfl

theorem exc_bind_ok (a : α) (f : α → Except Unit β) :
    (Except.ok a : Except Unit α) >>= f = f a := rfl

theorem exc_bind_err (f : α → Except Unit β) :
    (Except.error () : Except Unit α) >>= f = .error () := rfl

namespace CampaignsRoute

/-- Step equation of the filtering loop, holding by definitional
unfolding. -/
theorem filterIncluded_cons (hs : Bool) (bc rg : Option String) (sc : String)
    (c : Campaign) (cs : List Campaign) :
    filterIncluded hs bc rg sc (c :: cs) =
      includeCampaign hs bc rg sc c >>= fun b =>
        filterIncluded hs bc rg sc cs >>= fun rest =>
          pure (if b then c :: rest else rest) := rfl

theorem filterIncluded_eq_ok (hs : Bool) (bc rg : Option String) (sc : String)
    (l : List Campaign)
    (h : ∀ c ∈ l, includeCampaign hs bc rg sc c ≠ .error ()) :
    filterIncluded hs bc rg sc l = .ok (l.filter (includeBool hs bc rg sc)) := by
  induction l with
  | nil => rfl
  | cons c cs ih =>
    have hc := h c (List.mem_cons_self c cs)
    cases hinc : includeCampaign hs bc rg sc c with
    | error e => cases e; exact absurd hinc hc
    | ok b =>
      have hrest := ih (fun c' hc' => h c' (List.mem_cons_of_mem c hc'))
      rw [filterIncluded_cons, hinc, exc_bind_ok, hrest, exc_bind_ok,
        exc_pure_eq, List.filter_cons]
      have hib : includeBool hs bc rg sc c = b := by simp [includeBool, hinc]
      rw [hib]

theorem filterIncluded_eq_error_iff (hs : Bool) (bc rg : Option String)
    (sc : String) (l : List Campaign) :
    filterIncluded hs bc rg sc l = .error () ↔
      ∃ c ∈ l, includeCampaign hs bc rg sc c = .error () := by
  induction l with
  | nil => simp [filterIncluded]
  | cons c cs ih =>
    cases hinc : includeCampaign hs bc rg sc c with
    | error e =>
      cases e
      rw [filterIncluded_cons, hinc, exc_bind_err]
      exact iff_of_true rfl ⟨c, List.mem_cons_self c cs, hinc⟩
    | ok b =>
      rw [filterIncluded_cons, hinc, exc_bind_ok]
      cases hrest : filterIncluded hs bc rg sc cs with
      | error e =>
        cases e
        rw [exc_bind_err]
        refine iff_of_true rfl ?_
        rcases ih.mp hrest with ⟨c', hc', herr⟩
        exact ⟨c', List.mem_cons_of_mem c hc', herr⟩
      | ok rest =>
        rw [exc_bind_ok, exc_pure_eq]
        refine iff_of_false (by simp) ?_
        rintro ⟨c', hc', herr⟩
        rcases List.mem_cons.mp hc' with hcc | hc'
        · rw [hcc, hinc] at herr
          exact absurd herr (by simp)
        · have hcontra : filterIncluded hs bc rg sc cs = .error () :=
            ih.mpr ⟨c', hc', herr⟩
          rw [hrest] at hcontra
          exact absurd hcontra (by simp)

/-- With no station row found, the loop body never raises and includes
exactly the campaigns whose three targeting arrays are all falsy. -/
theorem includeCampaign_noStation (bc rg : Option String) (sc : String)
    (c : Campaign) :
    includeCampaign false bc rg sc c =
      .ok (!c.branches.orEmpty.truthy && !c.regions.orEmpty.truthy &&
        !c.stations.orEmpty.truthy) := by
  cases h : (!c.branches.orEmpty.truthy && !c.regions.orEmpty.truthy &&
      !c.stations.orEmpty.truthy) with
  | true => simp [includeCampaign, h, exc_pure_eq]
  | false =>
    simp only [includeCampaign, h, exc_pure_eq, Bool.false_eq_true, if_false,
      ite_false, Bool.not_false, if_true, ite_true]
    rfl

theorem pyGe_total (a b : Campaign) : pyGe a b || pyGe b a := by
  simp only [pyGe, Bool.or_eq_true, Bool.and_eq_true, decide_eq_true_eq,
    beq_iff_eq]
  omega

theorem pyGe_trans (a b c : Campaign) (h₁ : pyGe a b = true)
    (h₂ : pyGe b c = true) : pyGe a c = true := by
  simp only [pyGe, Bool.or_eq_true, Bool.and_eq_true, decide_eq_true_eq,
    beq_iff_eq] at h₁ h₂ ⊢
  omega

theorem pyGe_antisymm_key (a b : Campaign) (h₁ : pyGe a b = true)
    (h₂ : pyGe b a = true) : sortKey a = sortKey b := by
  simp only [pyGe, Bool.or_eq_true, Bool.and_eq_true, decide_eq_true_eq,
    beq_iff_eq] at h₁ h₂
  have : (sortKey a).1 = (sortKey b).1 ∧ (sortKey a).2 = (sortKey b).2 := by omega
  exact Prod.ext this.1 this.2

theorem mem_map_id_dedupById (seen : List Nat) (l : List Campaign) (i : Nat) :
    i ∈ (dedupById seen l).map Campaign.id ↔
      i ∈ l.map Campaign.id ∧ i ∉ seen := by
  induction l generalizing seen with
  | nil => simp [dedupById]
  | cons c cs ih =>
    by_cases hc : c.id ∈ seen
    · simp only [dedupById, hc, if_pos, List.map_cons, List.mem_cons, ih]
      constructor
      · rintro ⟨h, hs⟩
        exact ⟨Or.inr h, hs⟩
      · rintro ⟨h | h, hs⟩
        · exact absurd (h ▸ hc) hs
        · exact ⟨h, hs⟩
    · simp only [dedupById, hc, if_neg, List.map_cons, List.mem_cons, ih,
        not_false_iff]
      constructor
      · rintro (rfl | ⟨h, hs⟩)
        · exact ⟨Or.inl rfl, hc⟩
        · exact ⟨Or.inr h, fun hmem => hs (Or.inr hmem)⟩
      · rintro ⟨rfl | h, hs⟩
        · exact Or.inl rfl
        · by_cases hic : i = c.id
          · exact Or.inl hic
          · exact Or.inr ⟨h, fun hmem => hmem.elim hic hs⟩

/-- Characterisation of the loop body on a campaign whose three targeting
columns are well-formed (NULL or a real array): it never raises, and the
decision follows the code's guard cascade. -/
theorem includeCampaign_wf (hstn : Bool) (bc rg : Option String) (sc : String)
    (c : Campaign) (bs rs ss : List String)
    (hb : c.branches.orEmpty = .arr bs) (hr : c.regions.orEmpty = .arr rs)
    (hs2 : c.stations.orEmpty = .arr ss) :
    includeCampaign hstn bc rg sc c = .ok (
      if bs.isEmpty && rs.isEmpty && ss.isEmpty then true
      else if !hstn then false
      else if !rs.isEmpty && bs.isEmpty && ss.isEmpty then optMem rg rs
      else if !bs.isEmpty && ss.isEmpty then optMem bc bs
      else if !bs.isEmpty && !ss.isEmpty then optMem bc bs && ss.contains sc
      else false) := by
  simp only [includeCampaign, hb, hr, hs2]
  cases hbs : bs.isEmpty <;> cases hrs : rs.isEmpty <;> cases hss : ss.isEmpty <;>
    cases hstn <;>
    simp only [hbs, hrs, hss, JArr.truthy, JArr.pyMem_arr, exc_bind_ok,
      exc_bind_err, exc_pure_eq, Bool.not_true, Bool.not_false,
      Bool.and_true, Bool.and_false, Bool.true_and, Bool.false_and,
      Bool.and_self, if_true, if_false, ite_true, ite_false,
      Bool.false_eq_true, Bool.true_eq_false] <;>
    first
      | rfl
      | (cases hm : optMem bc bs <;>
          simp only [hm, JArr.pyMem_arr, exc_bind_ok, exc_pure_eq, if_true,
            if_false, ite_true, ite_false, Bool.true_and, Bool.false_and] <;>
          rfl)

end CampaignsRoute

/-! ## Claim theorems -/

/-- Claim C2: for every candidate campaign with well-formed targeting
arrays, the resolver's loop body never raises and decides inclusion by
exactly the four-rule cascade of the spec (global, regional, branch-wide,
station-specific, in this order, first match deciding; any other
combination is excluded). -/
theorem claim_C2 (hstn : Bool) (bc rg : Option String) (sc : String)
    (c : Campaign) (bs rs ss : List String)
    (hb : c.branches.orEmpty = .arr bs) (hr : c.regions.orEmpty = .arr rs)
    (hs2 : c.stations.orEmpty = .arr ss) :
    CampaignsRoute.includeCampaign hstn bc rg sc c =
      .ok (specRuleClassify hstn bc rg sc bs rs ss) := by
  rw [CampaignsRoute.includeCampaign_wf hstn bc rg sc c bs rs ss hb hr hs2]
  congr 1
  cases hbs : bs.isEmpty <;> cases hrs : rs.isEmpty <;>
    cases hss : ss.isEmpty <;> cases hstn <;>
    simp [specRuleClassify, hbs, hrs, hss]

/-- Witness for C2 at the undefined combination the claim names
(`regions` non-empty together with `stations` non-empty, `branches`
empty): the campaign is excluded and no error is raised. -/
theorem claim_C2_witness :
    CampaignsRoute.includeCampaign true (some "SP01") (some "Sudeste") "001"
      Scenario.cUndefinedCombo = .ok false := by
  have h := claim_C2 true (some "SP01") (some "Sudeste") "001"
    Scenario.cUndefinedCombo [] ["Sudeste"] ["001"] rfl rfl rfl
  rw [h]
  rfl

/-- Claim C3: a campaign is a candidate iff `is_deleted` is stored false,
its stored status is "active", and `start_date ≤ now ≤ end_date`, both
bounds inclusive; concretely at `now = 100`: a campaign starting at 100 is
a candidate, one ending at 100 is a candidate, one ending at 99 is not,
and an in-window paused campaign is not. -/
theorem claim_C3 :
    (∀ (rows : List Campaign) (now : Int) (c : Campaign),
      c ∈ CampaignsRoute.fetchCandidates rows now ↔
        c ∈ rows ∧ c.is_deleted = some false ∧ c.status = some "active" ∧
          c.start_date ≤ now ∧ now ≤ c.end_date) ∧
    CampaignsRoute.fetchCandidates [Scenario.cStartsNow] 100 =
      [Scenario.cStartsNow] ∧
    CampaignsRoute.fetchCandidates [Scenario.cEndsNow] 100 =
      [Scenario.cEndsNow] ∧
    CampaignsRoute.fetchCandidates [Scenario.cEndedBefore] 100 = [] ∧
    CampaignsRoute.fetchCandidates [Scenario.cPaused] 100 = [] := by
  refine ⟨?_, by decide, by decide, by decide, by decide⟩
  intro rows now c
  simp [CampaignsRoute.fetchCandidates, List.mem_filter, and_assoc, ge_iff_le]

/-- Claim C4: for a station-specific campaign (`branches` and `stations`
both non-empty), inclusion holds iff the resolved branch code is a member
of `branches` and the requested station code a member of `stations`; and
concretely the campaign targeting branch "010101", station "001" never
appears for the station with code "001" owned by branch "020202". -/
theorem claim_C4 :
    (∀ (hstn : Bool) (bc rg : Option String) (sc : String) (c : Campaign)
      (bs rs ss : List String),
      c.branches.orEmpty = .arr bs → c.regions.orEmpty = .arr rs →
      c.stations.orEmpty = .arr ss → bs ≠ [] → ss ≠ [] →
      (CampaignsRoute.includeCampaign hstn bc rg sc c = .ok true ↔
        hstn = true ∧ (∃ b, bc = some b ∧ b ∈ bs) ∧ sc ∈ ss)) ∧
    (respOf (CampaignsRoute.run Scenario.dbWrongBranch "001" 100)).map
      (fun r => r.campaigns) = some [] := by
  refine ⟨?_, by decide⟩
  intro hstn bc rg sc c bs rs ss hb hr hs2 hbs hss
  rw [CampaignsRoute.includeCampaign_wf hstn bc rg sc c bs rs ss hb hr hs2]
  have hbs' : bs.isEmpty = false := by
    cases bs with
    | nil => exact absurd rfl hbs
    | cons _ _ => rfl
  have hss' : ss.isEmpty = false := by
    cases ss with
    | nil => exact absurd rfl hss
    | cons _ _ => rfl
  cases hstn with
  | false => simp [hbs', hss']
  | true =>
    simp only [hbs', hss', Bool.false_and, Bool.and_false, Bool.and_true,
      Bool.true_and, Bool.not_false, Bool.not_true, if_false, ite_false,
      if_true, ite_true, Bool.false_eq_true, Bool.true_eq_false]
    cases bc with
    | none => simp [optMem]
    | some b0 => simp [optMem]

/-- Witness for C4's general half: for the station-specific campaign
targeting branch "010101", station "001", inclusion for requested station
"001" under resolved branch "020202" reduces to the two membership tests
(and so fails on the branch one). -/
theorem claim_C4_witness :
    CampaignsRoute.includeCampaign true (some "020202") (some "Sudeste")
        "001" Scenario.cStaWrongBranch = .ok true ↔
      (true = true ∧ (∃ b, (some "020202" : Option String) = some b ∧
        b ∈ ["010101"]) ∧ "001" ∈ ["001"]) :=
  claim_C4.1 true (some "020202") (some "Sudeste") "001"
    Scenario.cStaWrongBranch ["010101"] [] ["001"] rfl rfl rfl
    (by decide) (by decide)

/-- Claim C7: when no active station matches the requested code, the
handler still returns a well-formed response whose `branch_code` and
`region` are null and whose campaign list holds exactly the global
candidates (all three targeting arrays falsy) — no regional, branch or
station campaign. -/
theorem claim_C7 (db : DB) (sc : String) (now : Int)
    (h : CampaignsRoute.lookupStation db.stations sc = none) :
    ∃ r, CampaignsRoute.run db sc now = .resp r ∧
      r.branch_code = none ∧ r.region = none ∧
      ∀ i : Nat, i ∈ r.campaigns.map CampaignsRoute.CampaignView.id ↔
        ∃ c, c ∈ CampaignsRoute.fetchCandidates db.campaigns now ∧
          c.branches.truthy = false ∧ c.regions.truthy = false ∧
          c.stations.truthy = false ∧ c.id = i := by
  have hnoerr : ∀ c ∈ CampaignsRoute.fetchCandidates db.campaigns now,
      CampaignsRoute.includeCampaign false none none sc c ≠ .error () := by
    intro c _
    rw [CampaignsRoute.includeCampaign_noStation]
    simp
  have hfilter := CampaignsRoute.filterIncluded_eq_ok false none none sc
    (CampaignsRoute.fetchCandidates db.campaigns now) hnoerr
  have hrun : CampaignsRoute.run db sc now =
      .resp (CampaignsRoute.mkResponse sc none none none
        (CampaignsRoute.rankDedup
          ((CampaignsRoute.fetchCandidates db.campaigns now).filter
            (CampaignsRoute.includeBool false none none sc)))) := by
    simp only [CampaignsRoute.run, CampaignsRoute.activeByStation, h,
      Option.isSome_none, Option.none_bind, Option.map_none', hfilter]
  have hinc : ∀ c, CampaignsRoute.includeBool false none none sc c =
      (!c.branches.truthy && !c.regions.truthy && !c.stations.truthy) := by
    intro c
    simp [CampaignsRoute.includeBool, CampaignsRoute.includeCampaign_noStation,
      JArr.truthy_orEmpty]
  refine ⟨_, hrun, by simp [CampaignsRoute.mkResponse],
    by simp [CampaignsRoute.mkResponse], ?_⟩
  intro i
  have hviews : (CampaignsRoute.mkResponse sc none none none
      (CampaignsRoute.rankDedup
        ((CampaignsRoute.fetchCandidates db.campaigns now).filter
          (CampaignsRoute.includeBool false none none sc)))).campaigns.map
        CampaignsRoute.CampaignView.id =
      (CampaignsRoute.rankDedup
        ((CampaignsRoute.fetchCandidates db.campaigns now).filter
          (CampaignsRoute.includeBool false none none sc))).map Campaign.id := by
    simp [CampaignsRoute.mkResponse, List.map_map, Function.comp]
  rw [hviews, CampaignsRoute.rankDedup, CampaignsRoute.mem_map_id_dedupById]
  simp only [List.not_mem_nil, not_false_iff, and_true, List.mem_map]
  constructor
  · rintro ⟨c, hcmem, hid⟩
    have hlst := mem_sortBy.mp hcmem
    rcases List.mem_filter.mp hlst with ⟨hcand, hbool⟩
    rw [hinc] at hbool
    simp only [Bool.and_eq_true, Bool.not_eq_true'] at hbool
    exact ⟨c, hcand, hbool.1.1, hbool.1.2, hbool.2, hid⟩
  · rintro ⟨c, hcand, h1, h2, h3, hid⟩
    refine ⟨c, mem_sortBy.mpr (List.mem_filter.mpr ⟨hcand, ?_⟩), hid⟩
    rw [hinc]
    simp [h1, h2, h3]

/-- Witness for C7: the spec §8.7 catalog queried for the unknown station
code "zzz" degrades to the global campaign only, with null location. -/
theorem claim_C7_witness :
    ∃ r, CampaignsRoute.run Scenario.dbSpec87 "zzz" 100 = .resp r ∧
      r.branch_code = none ∧ r.region = none ∧
      ∀ i : Nat, i ∈ r.campaigns.map CampaignsRoute.CampaignView.id ↔
        ∃ c, c ∈ CampaignsRoute.fetchCandidates Scenario.dbSpec87.campaigns 100 ∧
          c.branches.truthy = false ∧ c.regions.truthy = false ∧
          c.stations.truthy = false ∧ c.id = i :=
  claim_C7 Scenario.dbSpec87 "zzz" 100 (by decide)

/-- Claim C1 (evaluation at the failing input): on the concrete scenario
of spec §8.7 the handler returns the campaigns in *ascending* priority
order — ids [1, 3, 2], i.e. [A, C, B] with priorities [0, 3, 5] — not the
claimed [B, C, A]: the sort key of line 227 negates the priority and
`reverse=True` then negates the comparison again. -/
theorem claim_C1_code_eval :
    (respOf (CampaignsRoute.run Scenario.dbSpec87 "001" 100)).map
      (fun r => r.campaigns.map (fun v => (v.id, v.priority))) =
      some [(1, some 0), (3, some 3), (2, some 5)] ∧
    ([1, 3, 2] : List Nat) ≠ [2, 3, 1] :=
  ⟨by decide, by decide⟩

/-- Counterexample to claim C5: with station "001" found, a catalog of one
good global campaign and one campaign with a malformed `regions` payload
yields an *empty* campaign list — the good campaign vanishes with the
batch — and a candidate-fetch failure with an unknown station is swallowed
into a normal empty 200 response instead of propagating as a service
error. -/
theorem claim_C5_cex :
    (respOf (CampaignsRoute.run Scenario.dbMalformed "001" 100)).map
      (fun r => r.campaigns.map (fun v => v.id)) = some [] ∧
    CampaignsRoute.activeByStation Scenario.dbMalformed "zzz" 100
        (.error ()) =
      .resp (CampaignsRoute.mkResponse "zzz" none none none []) :=
  ⟨by decide, by decide⟩

/-- Claim C5 (amended): an error raised while classifying any one
campaign is caught by the handler-wide try/except of lines 162–237, which
discards the *entire* batch — the response comes back well-formed with an
empty campaign list; and a failure of the candidate fetch itself does not
propagate as a deliberate service error: it produces the empty-list
response when no station row matched, and an unhandled `NameError`
(HTTP 500, from the then-unbound `branch_code` on line 241) exactly when a
station row was found. -/
theorem claim_C5_amended (db : DB) (sc : String) (now : Int)
    (cands : List Campaign) :
    (∀ st bc rg, st = CampaignsRoute.lookupStation db.stations sc →
      bc = (st.bind Station.branch).map Branch.code →
      rg = (st.bind Station.branch).bind Branch.region →
      CampaignsRoute.filterIncluded st.isSome bc rg sc cands = .error () →
      CampaignsRoute.activeByStation db sc now (.ok cands) =
        .resp (CampaignsRoute.mkResponse sc st bc rg [])) ∧
    (CampaignsRoute.activeByStation db sc now (.error ()) =
      if (CampaignsRoute.lookupStation db.stations sc).isSome then
        .serverError
      else .resp (CampaignsRoute.mkResponse sc none none none [])) := by
  constructor
  · rintro st bc rg rfl rfl rfl herr
    simp only [CampaignsRoute.activeByStation, herr]
  · simp only [CampaignsRoute.activeByStation]

/-- Witness for the amended C5 at the malformed catalog: the whole batch
is discarded but the response is still well-formed. -/
theorem claim_C5_amended_witness :
    CampaignsRoute.activeByStation Scenario.dbMalformed "001" 100
        (.ok [Scenario.cGlobalA, Scenario.cMalformed]) =
      .resp (CampaignsRoute.mkResponse "001" (some Scenario.st001)
        (some "SP01") (some "Sudeste") []) :=
  (claim_C5_amended Scenario.dbMalformed "001" 100
      [Scenario.cGlobalA, Scenario.cMalformed]).1
    (some Scenario.st001) (some "SP01") (some "Sudeste")
    (by decide) (by decide) (by decide) (by rfl)

/-- Counterexample to claim C6: two catalogs holding the same two global
campaigns with identical priority and creation time, in opposite row
orders, produce differently ordered outputs ([8, 9] versus [9, 8]) — the
ranking is not independent of the order in which the catalog hands back
the candidate rows. -/
theorem claim_C6_cex :
    (respOf (CampaignsRoute.run Scenario.dbTieA "001" 100)).map
      (fun r => r.campaigns.map (fun v => v.id)) = some [8, 9] ∧
    (respOf (CampaignsRoute.run Scenario.dbTieB "001" 100)).map
      (fun r => r.campaigns.map (fun v => v.id)) = some [9, 8] ∧
    List.Perm Scenario.dbTieA.campaigns Scenario.dbTieB.campaigns ∧
    Scenario.dbTieA.stations = Scenario.dbTieB.stations :=
  ⟨by decide, by decide, by decide, rfl⟩

/-- Claim C10: the station lookup constrains only the code and active
columns — rewriting every row's remaining fields, in particular the owning
branch, never changes which row position is selected — and concretely,
with two active stations sharing code "001" under branches X1 (SP) and Y1
(PR), the location used for targeting is that of whichever matching row
the directory returns first. -/
theorem claim_C10 :
    (∀ (rows : List Station) (f : Station → Station) (sc : String),
      (∀ s, (f s).code = s.code ∧ (f s).is_active = s.is_active) →
      CampaignsRoute.lookupStation (rows.map f) sc =
        Option.map f (CampaignsRoute.lookupStation rows sc)) ∧
    (respOf (CampaignsRoute.run Scenario.dbDupA "001" 100)).map
      (fun r => (r.branch_code, r.region)) =
        some (some "X1", some "Sudeste") ∧
    (respOf (CampaignsRoute.run Scenario.dbDupB "001" 100)).map
      (fun r => (r.branch_code, r.region)) =
        some (some "Y1", some "Sul") := by
  refine ⟨?_, by decide, by decide⟩
  intro rows f sc hf
  unfold CampaignsRoute.lookupStation
  have hp : ((fun s => s.code == sc && s.is_active == some true) ∘ f) =
      (fun s : Station => s.code == sc && s.is_active == some true) := by
    funext s
    simp [Function.comp, (hf s).1, (hf s).2]
  rw [List.find?_map, hp]

/-- Witness for C10's general half: stripping the branch from the single
matching row does not change which row the lookup selects. -/
theorem claim_C10_witness :
    CampaignsRoute.lookupStation
        ([Scenario.st001].map (fun s => { s with branch := none })) "001" =
      Option.map (fun s => { s with branch := none })
        (CampaignsRoute.lookupStation [Scenario.st001] "001") :=
  claim_C10.1 [Scenario.st001] (fun s => { s with branch := none }) "001"
    (fun _ => ⟨rfl, rfl⟩)

/-- Definitional step equation of the dashboard handler on a successful
candidate fetch. -/
theorem activeByStation_ok_eq (db : DB) (sc : String) (now : Int)
    (cands : List Campaign) :
    CampaignsRoute.activeByStation db sc now (.ok cands) =
      (match CampaignsRoute.filterIncluded
          (CampaignsRoute.lookupStation db.stations sc).isSome
          (((CampaignsRoute.lookupStation db.stations sc).bind
            Station.branch).map Branch.code)
          (((CampaignsRoute.lookupStation db.stations sc).bind
            Station.branch).bind Branch.region) sc cands with
        | .error _ => HandlerResult.resp (CampaignsRoute.mkResponse sc
            (CampaignsRoute.lookupStation db.stations sc)
            (((CampaignsRoute.lookupStation db.stations sc).bind
              Station.branch).map Branch.code)
            (((CampaignsRoute.lookupStation db.stations sc).bind
              Station.branch).bind Branch.region) [])
        | .ok included => HandlerResult.resp (CampaignsRoute.mkResponse sc
            (CampaignsRoute.lookupStation db.stations sc)
            (((CampaignsRoute.lookupStation db.stations sc).bind
              Station.branch).map Branch.code)
            (((CampaignsRoute.lookupStation db.stations sc).bind
              Station.branch).bind Branch.region)
            (CampaignsRoute.rankDedup included))) := rfl

/-- Claim C6 (amended): the resolver is a pure function of the snapshot,
and its output is independent of the order in which the catalog hands back
the campaign rows *provided* no two campaign rows share the same
(priority, created_at) sort key; rows tied on both appear in catalog row
order. -/
theorem claim_C6_amended (db1 db2 : DB) (sc : String) (now : Int)
    (hst : db1.stations = db2.stations)
    (hperm : List.Perm db1.campaigns db2.campaigns)
    (hkeys : ∀ a ∈ db1.campaigns, ∀ b ∈ db1.campaigns,
      CampaignsRoute.sortKey a = CampaignsRoute.sortKey b → a = b) :
    CampaignsRoute.run db1 sc now = CampaignsRoute.run db2 sc now := by
  have hpc : List.Perm (CampaignsRoute.fetchCandidates db1.campaigns now)
      (CampaignsRoute.fetchCandidates db2.campaigns now) := hperm.filter _
  show CampaignsRoute.activeByStation db1 sc now
      (.ok (CampaignsRoute.fetchCandidates db1.campaigns now)) =
    CampaignsRoute.activeByStation db2 sc now
      (.ok (CampaignsRoute.fetchCandidates db2.campaigns now))
  rw [activeByStation_ok_eq, activeByStation_ok_eq, ← hst]
  set st := CampaignsRoute.lookupStation db1.stations sc with hstdef
  set bc := (st.bind Station.branch).map Branch.code with hbcdef
  set rg := (st.bind Station.branch).bind Branch.region with hrgdef
  set cands1 := CampaignsRoute.fetchCandidates db1.campaigns now with hc1def
  set cands2 := CampaignsRoute.fetchCandidates db2.campaigns now with hc2def
  have hmemdb1 : ∀ a ∈ cands1, a ∈ db1.campaigns := by
    intro a ha
    rw [hc1def] at ha
    exact (List.mem_filter.mp ha).1
  by_cases herr : ∃ c ∈ cands1,
      CampaignsRoute.includeCampaign st.isSome bc rg sc c = .error ()
  · have h1 := (CampaignsRoute.filterIncluded_eq_error_iff st.isSome bc rg sc
      cands1).mpr herr
    have herr2 : ∃ c ∈ cands2,
        CampaignsRoute.includeCampaign st.isSome bc rg sc c = .error () := by
      rcases herr with ⟨c, hc, he⟩
      exact ⟨c, hpc.mem_iff.mp hc, he⟩
    have h2 := (CampaignsRoute.filterIncluded_eq_error_iff st.isSome bc rg sc
      cands2).mpr herr2
    rw [h1, h2]
  · have hne1 : ∀ c ∈ cands1,
        CampaignsRoute.includeCampaign st.isSome bc rg sc c ≠ .error () :=
      fun c hc hcontra => herr ⟨c, hc, hcontra⟩
    have hne2 : ∀ c ∈ cands2,
        CampaignsRoute.includeCampaign st.isSome bc rg sc c ≠ .error () :=
      fun c hc hcontra => herr ⟨c, hpc.mem_iff.mpr hc, hcontra⟩
    have h1 := CampaignsRoute.filterIncluded_eq_ok st.isSome bc rg sc cands1 hne1
    have h2 := CampaignsRoute.filterIncluded_eq_ok st.isSome bc rg sc cands2 hne2
    rw [h1, h2]
    have hsorteq :
        sortBy CampaignsRoute.pyGe
          (cands1.filter (CampaignsRoute.includeBool st.isSome bc rg sc)) =
        sortBy CampaignsRoute.pyGe
          (cands2.filter (CampaignsRoute.includeBool st.isSome bc rg sc)) := by
      refine @sorted_perm_eq Campaign CampaignsRoute.pyGe _ _
        ((sortBy_perm _ _).trans ((hpc.filter _).trans (sortBy_perm _ _).symm))
        (sortBy_pairwise _ CampaignsRoute.pyGe_total CampaignsRoute.pyGe_trans _)
        (sortBy_pairwise _ CampaignsRoute.pyGe_total CampaignsRoute.pyGe_trans _)
        ?_
      intro a ha b hb hab hba
      have ha' : a ∈ db1.campaigns :=
        hmemdb1 a (List.mem_filter.mp (mem_sortBy.mp ha)).1
      have hb' : b ∈ db1.campaigns :=
        hmemdb1 b (List.mem_filter.mp (mem_sortBy.mp hb)).1
      exact hkeys a ha' b hb' (CampaignsRoute.pyGe_antisymm_key a b hab hba)
    have hrd : CampaignsRoute.rankDedup
        (cands1.filter (CampaignsRoute.includeBool st.isSome bc rg sc)) =
      CampaignsRoute.rankDedup
        (cands2.filter (CampaignsRoute.includeBool st.isSome bc rg sc)) := by
      unfold CampaignsRoute.rankDedup
      rw [hsorteq]
    show HandlerResult.resp (CampaignsRoute.mkResponse sc st bc rg
        (CampaignsRoute.rankDedup
          (List.filter (CampaignsRoute.includeBool st.isSome bc rg sc) cands1))) =
      HandlerResult.resp (CampaignsRoute.mkResponse sc st bc rg
        (CampaignsRoute.rankDedup
          (List.filter (CampaignsRoute.includeBool st.isSome bc rg sc) cands2)))
    rw [hrd]

/-- Witness for the amended C6: the spec §8.7 catalog and a reordering of
its rows (all four sort keys distinct) resolve identically. -/
theorem claim_C6_amended_witness :
    CampaignsRoute.run Scenario.dbSpec87 "001" 100 =
      CampaignsRoute.run Scenario.dbSpec87Perm "001" 100 :=
  claim_C6_amended Scenario.dbSpec87 Scenario.dbSpec87Perm "001" 100 rfl
    (by decide) (by decide)

/-- The two copy-pasted filtering loops compute the same function. -/
theorem tablets_filterIncluded_eq (hs : Bool) (bc rg : Option String)
    (sc : String) (l : List Campaign) :
    TabletsRoute.filterIncluded hs bc rg sc l =
      CampaignsRoute.filterIncluded hs bc rg sc l := by
  induction l with
  | nil => rfl
  | cons c cs ih =>
    have h1 : TabletsRoute.filterIncluded hs bc rg sc (c :: cs) =
        TabletsRoute.includeCampaign hs bc rg sc c >>= fun b =>
          TabletsRoute.filterIncluded hs bc rg sc cs >>= fun rest =>
            pure (if b then c :: rest else rest) := rfl
    have hinc : TabletsRoute.includeCampaign = CampaignsRoute.includeCampaign :=
      rfl
    rw [h1, ih, hinc, CampaignsRoute.filterIncluded_cons]

/-- The two copy-pasted deduplication loops compute the same function. -/
theorem tablets_dedupById_eq (seen : List Nat) (l : List Campaign) :
    TabletsRoute.dedupById seen l = CampaignsRoute.dedupById seen l := by
  induction l generalizing seen with
  | nil => rfl
  | cons c cs ih =>
    simp only [TabletsRoute.dedupById, CampaignsRoute.dedupById, ih]

/-- The two copy-pasted rank-and-deduplicate stages compute the same
function. -/
theorem tablets_rankDedup_eq (l : List Campaign) :
    TabletsRoute.rankDedup l = CampaignsRoute.rankDedup l := by
  unfold TabletsRoute.rankDedup CampaignsRoute.rankDedup
  rw [tablets_dedupById_eq]
  rfl

/-- Definitional step equation of the tablet handler on a successful
candidate fetch. -/
theorem getActive_ok_eq (db : DB) (sc : String) (now : Int)
    (cands : List Campaign) :
    TabletsRoute.getActiveForStation db sc now (.ok cands) =
      (match TabletsRoute.filterIncluded
          (TabletsRoute.lookupStation db.stations sc).isSome
          (((TabletsRoute.lookupStation db.stations sc).bind
            Station.branch).map Branch.code)
          (((TabletsRoute.lookupStation db.stations sc).bind
            Station.branch).bind Branch.region) sc cands with
        | .error _ => HandlerResult.resp (TabletsRoute.TabletResponse.mk sc
            (if (TabletsRoute.lookupStation db.stations sc).isSome then
              ((TabletsRoute.lookupStation db.stations sc).bind
                Station.branch).map Branch.code
             else none)
            (if (TabletsRoute.lookupStation db.stations sc).isSome then
              ((TabletsRoute.lookupStation db.stations sc).bind
                Station.branch).bind Branch.region
             else none)
            (([] : List Campaign).map (TabletsRoute.assembleCampaign db.images))
            ([] : List Campaign).length 120)
        | .ok included => HandlerResult.resp (TabletsRoute.TabletResponse.mk sc
            (if (TabletsRoute.lookupStation db.stations sc).isSome then
              ((TabletsRoute.lookupStation db.stations sc).bind
                Station.branch).map Branch.code
             else none)
            (if (TabletsRoute.lookupStation db.stations sc).isSome then
              ((TabletsRoute.lookupStation db.stations sc).bind
                Station.branch).bind Branch.region
             else none)
            ((TabletsRoute.rankDedup included).map
              (TabletsRoute.assembleCampaign db.images))
            (TabletsRoute.rankDedup included).length 120)) := rfl

/-- Claim C8: for every database snapshot, station code, timestamp and
fetch outcome, the dashboard and tablet handlers select the same campaigns
in the same order with the same targeting level, agree on the location
fields and the total, and fail in exactly the same cases — the two
surfaces differ only in output shape. -/
theorem claim_C8 (db : DB) (sc : String) (now : Int)
    (fo : Except Unit (List Campaign)) :
    projTab (TabletsRoute.getActiveForStation db sc now fo) =
      projDash (CampaignsRoute.activeByStation db sc now fo) := by
  have hlabel : ∀ c, TabletsRoute.targetingLevel c =
      CampaignsRoute.targetingLevel c := by
    intro c
    simp [TabletsRoute.targetingLevel, CampaignsRoute.targetingLevel,
      JArr.truthy_orEmpty]
  have hl : TabletsRoute.lookupStation = CampaignsRoute.lookupStation := rfl
  cases fo with
  | error e =>
    cases e
    have hT : TabletsRoute.getActiveForStation db sc now (.error ()) =
        (if (TabletsRoute.lookupStation db.stations sc).isSome then
          .serverError
         else HandlerResult.resp
          (TabletsRoute.TabletResponse.mk sc none none [] 0 120)) := rfl
    have hD : CampaignsRoute.activeByStation db sc now (.error ()) =
        (if (CampaignsRoute.lookupStation db.stations sc).isSome then
          .serverError
         else HandlerResult.resp
          (CampaignsRoute.mkResponse sc none none none [])) := rfl
    rw [hT, hD, hl]
    by_cases hst : (CampaignsRoute.lookupStation db.stations sc).isSome
    · simp [hst, projTab, projDash]
    · simp [hst, projTab, projDash, CampaignsRoute.mkResponse]
  | ok cands =>
    rw [getActive_ok_eq, activeByStation_ok_eq, hl,
      tablets_filterIncluded_eq]
    cases hf : CampaignsRoute.filterIncluded
        (CampaignsRoute.lookupStation db.stations sc).isSome
        (((CampaignsRoute.lookupStation db.stations sc).bind
          Station.branch).map Branch.code)
        (((CampaignsRoute.lookupStation db.stations sc).bind
          Station.branch).bind Branch.region) sc cands with
    | error e =>
      simp [projTab, projDash, CampaignsRoute.mkResponse]
    | ok included =>
      simp only [projTab, projDash, CampaignsRoute.mkResponse,
        tablets_rankDedup_eq]
      simp [List.map_map, Function.comp, TabletsRoute.assembleCampaign, hlabel]

/-- Counterexample to claim C9: for the catalog holding campaign A
(default display time 5000) with one active image whose override is NULL,
the tablet surface exposes `display_time = null` for that image — not the
campaign default 5000 the claim requires. -/
theorem claim_C9_cex :
    (campaignsOfT (TabletsRoute.run Scenario.dbImg "001" 100)).map
      (fun v => (v.default_display_time,
        v.images.map (fun iv => iv.display_time))) =
      [(some 5000, [none])] ∧
    (none : Option Int) ≠ some 5000 :=
  ⟨by decide, by decide⟩

/-- Claim C9 (amended): on the tablet surface every returned campaign
carries exactly its active images, listed in ascending `order`, and each
image's exposed `display_time` equals the image's own `display_time`
column — null when the override is absent — with the campaign's
`default_display_time` exposed separately at campaign level for the client
to apply as the fallback. -/
theorem claim_C9_amended (db : DB) (sc : String) (now : Int)
    (fo : Except Unit (List Campaign))
    (v : TabletsRoute.TabletCampaignView)
    (hv : v ∈ campaignsOfT (TabletsRoute.getActiveForStation db sc now fo)) :
    v.images = (TabletsRoute.activeImagesSorted db.images v.id).map
        (TabletsRoute.formatImage v.id) ∧
    List.Pairwise (fun a b => a.order_index ≤ b.order_index) v.images ∧
    (∀ i : Nat, i ∈ v.images.map TabletsRoute.TabletImageView.id ↔
      ∃ img, img ∈ db.images ∧ img.campaign_id = v.id ∧
        img.active = some true ∧ img.id = i) ∧
    (∀ iv ∈ v.images, ∃ img, img ∈ db.images ∧ img.campaign_id = v.id ∧
      img.active = some true ∧ iv.display_time = img.display_time ∧
      iv.order_index = img.order ∧ iv.id = img.id) := by
  have hshape : ∃ l : List Campaign,
      campaignsOfT (TabletsRoute.getActiveForStation db sc now fo) =
        l.map (TabletsRoute.assembleCampaign db.images) := by
    cases fo with
    | error e =>
      cases e
      have hT : TabletsRoute.getActiveForStation db sc now (.error ()) =
          (if (TabletsRoute.lookupStation db.stations sc).isSome then
            .serverError
           else HandlerResult.resp
            (TabletsRoute.TabletResponse.mk sc none none [] 0 120)) := rfl
      rw [hT]
      by_cases hst : (TabletsRoute.lookupStation db.stations sc).isSome
      · exact ⟨[], by simp [hst, campaignsOfT]⟩
      · exact ⟨[], by simp [hst, campaignsOfT]⟩
    | ok cands =>
      rw [getActive_ok_eq]
      cases hf : TabletsRoute.filterIncluded
          (TabletsRoute.lookupStation db.stations sc).isSome
          (((TabletsRoute.lookupStation db.stations sc).bind
            Station.branch).map Branch.code)
          (((TabletsRoute.lookupStation db.stations sc).bind
            Station.branch).bind Branch.region) sc cands with
      | error e => exact ⟨[], rfl⟩
      | ok included => exact ⟨TabletsRoute.rankDedup included, rfl⟩
  rcases hshape with ⟨l, hl2⟩
  rw [hl2] at hv
  rcases List.mem_map.mp hv with ⟨c, hcmem, hvc⟩
  subst hvc
  have htot : ∀ a b : CampaignImage,
      (decide (a.order ≤ b.order) || decide (b.order ≤ a.order)) = true := by
    intro a b
    rcases Int.le_total a.order b.order with h | h <;> simp [h]
  have htrans : ∀ a b c' : CampaignImage,
      decide (a.order ≤ b.order) = true → decide (b.order ≤ c'.order) = true →
      decide (a.order ≤ c'.order) = true := by
    intro a b c' h1 h2
    simp only [decide_eq_true_eq] at h1 h2 ⊢
    omega
  refine ⟨rfl, ?_, ?_, ?_⟩
  · show List.Pairwise _
      ((TabletsRoute.activeImagesSorted db.images c.id).map
        (TabletsRoute.formatImage c.id))
    rw [List.pairwise_map]
    have hs := sortBy_pairwise (fun a b : CampaignImage =>
      decide (a.order ≤ b.order)) htot htrans
      (db.images.filter (fun i => i.campaign_id == c.id && i.active == some true))
    refine hs.imp ?_
    intro a b h
    simpa [TabletsRoute.formatImage] using h
  · intro i
    show i ∈ ((TabletsRoute.activeImagesSorted db.images c.id).map
        (TabletsRoute.formatImage c.id)).map TabletsRoute.TabletImageView.id ↔ _
    rw [List.map_map]
    constructor
    · intro hmem
      rcases List.mem_map.mp hmem with ⟨img, hm, hid⟩
      have hfil := List.mem_filter.mp
        (mem_sortBy.mp (by simpa [TabletsRoute.activeImagesSorted] using hm))
      simp only [Bool.and_eq_true, beq_iff_eq] at hfil
      exact ⟨img, hfil.1, hfil.2.1, hfil.2.2, by simpa [TabletsRoute.formatImage,
        Function.comp] using hid⟩
    · rintro ⟨img, hm, hcid, hact, hid⟩
      refine List.mem_map.mpr ⟨img, ?_, by simpa [TabletsRoute.formatImage,
        Function.comp] using hid⟩
      show img ∈ TabletsRoute.activeImagesSorted db.images c.id
      rw [TabletsRoute.activeImagesSorted]
      exact mem_sortBy.mpr (List.mem_filter.mpr
        ⟨hm, by simp [hcid, hact, TabletsRoute.assembleCampaign]⟩)
  · intro iv hmem
    rcases List.mem_map.mp hmem with ⟨img, hm, hivdef⟩
    have hfil := List.mem_filter.mp
      (mem_sortBy.mp (by simpa [TabletsRoute.activeImagesSorted] using hm))
    simp only [Bool.and_eq_true, beq_iff_eq] at hfil
    subst hivdef
    exact ⟨img, hfil.1, hfil.2.1, hfil.2.2, rfl, rfl, rfl⟩

/-- Witness for the amended C9 at the concrete catalog `dbImg`: campaign
A's tablet entry carries exactly its one active image, in order, with the
raw (null) display-time column. -/
theorem claim_C9_amended_witness :
    Scenario.vGlobalA.images =
      (TabletsRoute.activeImagesSorted Scenario.dbImg.images
        Scenario.vGlobalA.id).map
        (TabletsRoute.formatImage Scenario.vGlobalA.id) ∧
    List.Pairwise (fun a b => a.order_index ≤ b.order_index)
      Scenario.vGlobalA.images ∧
    (∀ i : Nat, i ∈ Scenario.vGlobalA.images.map
        TabletsRoute.TabletImageView.id ↔
      ∃ img, img ∈ Scenario.dbImg.images ∧
        img.campaign_id = Scenario.vGlobalA.id ∧
        img.active = some true ∧ img.id = i) ∧
    (∀ iv ∈ Scenario.vGlobalA.images, ∃ img,
      img ∈ Scenario.dbImg.images ∧
      img.campaign_id = Scenario.vGlobalA.id ∧ img.active = some true ∧
      iv.display_time = img.display_time ∧ iv.order_index = img.order ∧
      iv.id = img.id) :=
  claim_C9_amended Scenario.dbImg "001" 100
    (.ok (TabletsRoute.fetchCandidates Scenario.dbImg.campaigns 100))
    Scenario.vGlobalA (by decide)

end Feed
